import Mathlib

/-!
Shallow embedding of `src/main.rs` (PromptFlow), a CLI tool that resolves an
API credential through a file-backed cache, appends the user's keyword to a
file-backed history, derives the 5 most recent history lines, and composes a
system instruction for an external text-generation call.

File I/O is modelled by explicit `FileState` values (absent / existing but
unreadable / readable with given contents), write failures by boolean flags,
and every performed read/write is recorded in an event trace.
-/

/-! ### Rust string primitives -/

/-- The Unicode `White_Space` set used by Rust's `char::is_whitespace`
(and hence `str::trim`). -/
def rustIsWhitespace (c : Char) : Bool :=
  c = '\x09' || c = '\x0a' || c = '\x0b' || c = '\x0c' || c = '\x0d' || c = ' ' ||
  c = '\x85' || c = '\xa0' || c = '\u1680' ||
  c = '\u2000' || c = '\u2001' || c = '\u2002' || c = '\u2003' || c = '\u2004' ||
  c = '\u2005' || c = '\u2006' || c = '\u2007' || c = '\u2008' || c = '\u2009' ||
  c = '\u200A' || c = '\u2028' || c = '\u2029' || c = '\u202F' || c = '\u205F' ||
  c = '\u3000'

/-- Rust's `str::trim`: removes leading and trailing whitespace. -/
def rustTrim (s : String) : String :=
  ⟨((s.data.dropWhile rustIsWhitespace).reverse.dropWhile rustIsWhitespace).reverse⟩

/-- Split a character list at every newline character, keeping (possibly empty)
segments; the result is always nonempty, like `str::split('\n')`. -/
def splitNL : List Char → List (List Char)
  | [] => [[]]
  | c :: cs =>
    if c = '\n' then [] :: splitNL cs
    else (c :: (splitNL cs).headI) :: (splitNL cs).tail

/-- Remove one trailing carriage return, as Rust's `lines` does on each line
that was terminated by a newline. -/
def stripCR (l : List Char) : List Char :=
  if l.getLast? = some '\r' then l.dropLast else l

/-- Rust's `str::lines` on a character list: split at `'\n'`, drop a final
empty segment produced by a trailing newline, and strip a `'\r'` from every
segment that was actually terminated by `'\n'`. -/
def rustLinesL (cs : List Char) : List (List Char) :=
  if (splitNL cs).getLast? = some [] then (splitNL cs).dropLast.map stripCR
  else (splitNL cs).dropLast.map stripCR ++ [(splitNL cs).getLastD []]

/-- Rust's `str::lines` on a `String`. -/
def rustLines (s : String) : List String :=
  (rustLinesL s.data).map fun l => ⟨l⟩

/-! ### History handling (main.rs lines 194-219) -/

/-- `history.push_str(&format!("{}\n", prompt))`: the updated history
contents. -/
def appendHistory (history prompt : String) : String :=
  history ++ prompt ++ "\n"

/-- `history.lines().collect().into_iter().rev().take(5).rev().collect()`:
the 5 most recent history lines in chronological order. -/
def recentWindow (updated : String) : List String :=
  ((rustLines updated).reverse.take 5).reverse

/-- The recent window joined with `"\n"`, exactly the `recent_prompts`
string built in the source. -/
def recentPrompts (updated : String) : String :=
  String.intercalate "\n" (recentWindow updated)

/-- A history file holding the given entries one per line, i.e. the contents
produced by appending each entry in turn: every entry is followed by a
newline terminator. -/
def mkHistory : List String → String
  | [] => ""
  | e :: es => e ++ "\n" ++ mkHistory es

/-- Iterated appends starting from an empty history file. -/
def appendAll (entries : List String) : String :=
  entries.foldl appendHistory ""

/-! ### Constants from main.rs -/

/-- Model name for the Gemini API. -/
def MODEL : String := "gemini-2.0-flash"

/-- Standard negative prompt printed after the generated text. -/
def NEGATIVE_PROMPT : String :=
  "ugly, tiling, poorly drawn hands, poorly drawn feet, poorly drawn face, out of frame, extra limbs, disfigured, deformed, body out of frame, bad anatomy, watermark, signature, cut off, low contrast, underexposed, overexposed, bad art, beginner, amateur, distorted face, blurry, lowres, low quality, worst quality, low quality, normal quality, jpeg artifacts, signature, watermark, username, blurry"

/-- The static system-instruction template (the raw string constant of
main.rs, which begins and ends with a newline). -/
def SYSTEM_INSTRUCTION : String :=
  "\nYou are an assistant specialized in generating prompts **exclusively for anime-style** AI image generation from a given keyword.\n"
  ++ "\n**Core Task:**\n"
  ++ "Generate detailed AI image prompts based on a user\x27s keyword, ensuring the final image aesthetic is distinctly **anime or manga style**.\n"
  ++ "**Crucially, you MUST actively utilize ALL the following techniques where appropriate to achieve high-quality anime results:**\n"
  ++ "*   Incorporate detailed keywords covering the 8 mandatory component categories, tailoring them for anime.\n"
  ++ "*   Employ keyword weighting `(keyword: factor)` to emphasize or de-emphasize specific anime elements (e.g., `(cel shading:1.3)`, `(sparkles:0.8)`).\n"
  ++ "*   Use known anime/manga character names for consistency when relevant to the keyword (e.g., \x27Asuka Langley Soryu\x27, \x27Naruto Uzumaki\x27).\n"
  ++ "*   Utilize the `BREAK` keyword for segmentation to prevent concept mixing in complex anime scenes.\n"
  ++ "*   Adhere to the principle of being highly detailed and specific to effectively guide the image generation process towards the desired anime look.\n"
  ++ "\n**Constraint:**\n"
  ++ "**Your primary focus is the anime aesthetic. Do NOT generate prompts aiming for realism, photorealism, or photographic styles. Avoid keywords like \x27photo\x27, \x27photorealistic\x27, \x27hyperrealistic\x27, \x27realistic\x27 unless used carefully as a minor modifier for specific background elements *while maintaining an overall anime style*.**\n"
  ++ "\n**Mandatory Prompt Components (Anime Focused):**\n"
  ++ "The prompts you generate MUST contain keywords covering the following categories, interpreted through an anime lens:\n"
  ++ "1.  **Subject:** (e.g., anime girl, shonen protagonist, mecha, fantasy creature in anime style)\n"
  ++ "2.  **Medium:** (e.g., anime screenshot, digital painting (anime style), manga page, light novel illustration, 2D animation cel, cel shading)\n"
  ++ "3.  **Style:** (e.g., modern anime, 90s anime aesthetic, shojo manga style, studio ghibli inspired, Makoto Shinkai style, chibi)\n"
  ++ "4.  **Art-sharing website/Platform:** (e.g., Pixiv, ArtStation (with anime tags), Danbooru aesthetic - *use platforms known for anime art*)\n"
  ++ "5.  **Resolution/Quality:** (e.g., high quality illustration, sharp focus, detailed linework, 4k anime wallpaper)\n"
  ++ "6.  **Additional details:** (background, clothing specific to anime tropes, actions, specific visual elements like speed lines, sparkles, dramatic expressions)\n"
  ++ "7.  **Color:** (e.g., vibrant anime colors, pastel palette, specific character hair/eye colors, cel shaded colors)\n"
  ++ "8.  **Lighting:** (e.g., dramatic anime lighting, volumetric light, rim lighting, soft anime glow, lens flare)\n"
  ++ "\n--------------------\n"
  ++ "**Example (Illustrating Anime Techniques):**\n"
  ++ "\n*   **Input Keyword:** \x27Anime knight defending a gate\x27\n"
  ++ "*   **Generated Prompt:** \x27(epic male anime knight:1.2) with silver armor and (glowing blue sword:1.1), determined expression, dynamic action pose defending ancient stone gate BREAK dramatic background with stormy clouds and distant mountains, modern anime style, (cel shading:1.3), digital painting, featured on Pixiv, high quality illustration, sharp focus on knight, detailed armor design, cool color palette (blues, grays, silver:1.1), dramatic cinematic lighting, (rain effects:0.9), intense atmosphere, (fantasy anime aesthetic:1.2)\x27\n"
  ++ "    *   *Note:* This example uses anime-specific terms (anime knight, cel shading, Pixiv, fantasy anime aesthetic), weighting, the `BREAK` keyword, and covers all 8 component categories within the anime context.\n"
  ++ "\n--------------------\n"
  ++ "**Advanced Techniques Explained:**\n"
  ++ "\n**1. Keyword Weighting:**\n"
  ++ "*   Adjust the importance of a keyword using the syntax: `(keyword: factor)`\n"
  ++ "*   `factor < 1`: Less important (e.g., `(background details: 0.7)`)\n"
  ++ "*   `factor > 1`: More important (e.g., `(dynamic pose: 1.4)`)\n"
  ++ "*   *Use this to fine-tune specific anime elements.*\n"
  ++ "\n**2. Character Consistency:**\n"
  ++ "*   For consistent depictions, use known anime/manga character names when appropriate.\n"
  ++ "*   Example: Prompting for \x27Rem\x27 (from Re:Zero) helps generate her specific appearance.\n"
  ++ "\n**3. Prompt Segmentation (`BREAK`):**\n"
  ++ "*   Prevent the AI from mixing distinct concepts (e.g., applying character\x27s hair color to the background). Separate using `BREAK` on its own line.\n"
  ++ "*   Example:\n"
  ++ "    anime girl with pink hair, wearing school uniform\n"
  ++ "    BREAK\n"
  ++ "    detailed classroom background, sunny day\n"
  ++ "\n--------------------\n"
  ++ "**Underlying Principle (Think like Stable Diffusion for Anime):**\n"
  ++ "\n*   Stable Diffusion is an image sampler. Your prompt guides it towards the *anime* part of its potential outputs.\n"
  ++ "*   **Detailed and specific prompts using techniques like weighting and segmentation are effective** because they narrow the sampling space, guiding diffusion towards the desired, complex **anime aesthetic**. Your role is to use *all* these tools to create the best guidance for generating anime-style images.\n"

/-! ### Request composition (main.rs lines 221-225) -/

/-- `format!("{}\n\n--------------------\n**Previous Generated Prompts:**\n{}",
template, recent)`. -/
def composeInstruction (template recen : String) : String :=
  template ++ "\n\n--------------------\n**Previous Generated Prompts:**\n" ++ recen

/-- Composition taking the recent window as an ordered sequence, as in the
RequestComposer contract. -/
def compose (template : String) (window : List String) : String :=
  composeInstruction template (String.intercalate "\n" window)

/-! ### File-backed state and errors -/

/-- Errors that terminate a run, following the spec's taxonomy as realized by
the source's early returns and `?` propagation. -/
inductive AppErr
  | missingArguments
  | missingKeyValue
  | missingPromptValue
  | missingCredential
  | storage
  | emptyInput
deriving DecidableEq

/-- Observable state of one of the two cache files. -/
inductive FileState
  | absent
  | unreadable
  | readable (contents : String)
deriving DecidableEq

/-- A performed file-I/O operation (reads, and writes with the written
bytes). -/
inductive Ev
  | keyRead
  | keyWrite (v : String)
  | histRead
  | histWrite (v : String)
deriving DecidableEq

/-- Whether an event touches the history file. -/
def isHistEv : Ev → Bool
  | .histRead => true
  | .histWrite _ => true
  | _ => false

/-! ### Credential resolution (main.rs lines 130-178) -/

/-- The fallback taken when the key file exists but its contents are blank or
unreadable (main.rs lines 136-154): an explicit argument is returned without
being written back; otherwise the environment value is written to the key
file and returned. -/
def keyFallbackExisting (keyFile : FileState) (apiKey envKey : Option String)
    (writeOk : Bool) : Except AppErr (String × FileState) × List Ev :=
  match apiKey with
  | some k => (.ok (k, keyFile), [])
  | none =>
    match envKey with
    | some k =>
      if writeOk then (.ok (k, .readable k), [.keyWrite k])
      else (.error .storage, [.keyWrite k])
    | none => (.error .missingCredential, [])

/-- Credential resolution: returns the resolved key plus the key file's
resulting state, and the trace of key-file operations performed. -/
def resolveKey (keyFile : FileState) (apiKey envKey : Option String)
    (writeOk : Bool) : Except AppErr (String × FileState) × List Ev :=
  match keyFile with
  | .readable contents =>
    if rustTrim contents = "" then
      let r := keyFallbackExisting (.readable contents) apiKey envKey writeOk
      (r.1, .keyRead :: r.2)
    else (.ok (rustTrim contents, .readable contents), [.keyRead])
  | .unreadable =>
    let r := keyFallbackExisting .unreadable apiKey envKey writeOk
    (r.1, .keyRead :: r.2)
  | .absent =>
    match apiKey with
    | some k =>
      if writeOk then (.ok (k, .readable k), [.keyWrite k])
      else (.error .storage, [.keyWrite k])
    | none =>
      match envKey with
      | some k =>
        if writeOk then (.ok (k, .readable k), [.keyWrite k])
        else (.error .storage, [.keyWrite k])
      | none => (.error .missingCredential, [])

/-- Two credential resolutions in a row against the same argument and
environment, threading the key-file state of the first call into the second;
returns both resolved values, the final file state, and the combined trace. -/
def resolveKeyTwice (keyFile : FileState) (apiKey envKey : Option String)
    (writeOk : Bool) : Except AppErr (String × String × FileState) × List Ev :=
  match resolveKey keyFile apiKey envKey writeOk with
  | (.ok (v1, s1), evs1) =>
    match resolveKey s1 apiKey envKey writeOk with
    | (.ok (v2, s2), evs2) => (.ok (v1, v2, s2), evs1 ++ evs2)
    | (.error er, evs2) => (.error er, evs1 ++ evs2)
  | (.error er, evs1) => (.error er, evs1)

/-! ### History phase (main.rs lines 194-219) -/

/-- Read the history file (a missing file and a read failure both yield empty
contents), append the prompt, write the whole file back, and return the
joined recent window together with the history file's new state. -/
def histPhase (histFile : FileState) (prompt : String) (writeOk : Bool) :
    Except AppErr (String × FileState) × List Ev :=
  let read :=
    match histFile with
    | .readable contents => (contents, [Ev.histRead])
    | .unreadable => ("", [Ev.histRead])
    | .absent => ("", ([] : List Ev))
  let updated := appendHistory read.1 prompt
  if writeOk then
    (.ok (recentPrompts updated, .readable updated), read.2 ++ [.histWrite updated])
  else (.error .storage, read.2 ++ [.histWrite updated])

/-! ### Argument parsing (main.rs lines 98-128) -/

/-- The argument loop: `--key`/`-k` and `--prompt`/`-p` consume the next
argument and overwrite the corresponding slot; any other argument becomes the
prompt only if none is set yet. -/
def parseArgsAux : List String → Option String → Option String →
    Except AppErr (Option String × Option String)
  | [], apiKey, prompt => .ok (apiKey, prompt)
  | a :: rest, apiKey, prompt =>
    if a = "--key" ∨ a = "-k" then
      match rest with
      | v :: rest2 => parseArgsAux rest2 (some v) prompt
      | [] => .error .missingKeyValue
    else if a = "--prompt" ∨ a = "-p" then
      match rest with
      | v :: rest2 => parseArgsAux rest2 apiKey (some v)
      | [] => .error .missingPromptValue
    else
      parseArgsAux rest apiKey (match prompt with | none => some a | some p => some p)

/-- The four strings recognized as flags by the argument loop. -/
def flagStrings : List String := ["--key", "-k", "--prompt", "-p"]

/-! ### The whole run (main.rs `main`) -/

/-- The file-backed environment a run starts from. -/
structure World where
  keyFile : FileState
  envKey : Option String
  histFile : FileState
  keyWriteOk : Bool
  histWriteOk : Bool

/-- The outbound request handed to the external text-generation collaborator:
`client.chat(MODEL).system_instruction(&si).send_message(&prompt)`. -/
structure Request where
  model : String
  systemInstruction : String
  message : String
  apiKeyUsed : String

/-- Result of a run: the outcome up to the external call, the ordered trace
of file operations, and the final file states. -/
structure RunOut where
  result : Except AppErr Request
  events : List Ev
  world : World

/-- The whole of `main` up to the external API call, in source order:
argument-count check, argument parsing, credential resolution, blank-prompt
check, history phase, request composition. -/
def runMain (args : List String) (w : World) : RunOut :=
  if args.length < 2 then ⟨.error .missingArguments, [], w⟩
  else
    match parseArgsAux (args.drop 1) none none with
    | .error e => ⟨.error e, [], w⟩
    | .ok (apiKey, promptArg) =>
      match resolveKey w.keyFile apiKey w.envKey w.keyWriteOk with
      | (.error e, evs1) => ⟨.error e, evs1, w⟩
      | (.ok (key, keyFile2), evs1) =>
        let w1 : World := { w with keyFile := keyFile2 }
        match promptArg with
        | some p =>
          if rustTrim p = "" then ⟨.error .emptyInput, evs1, w1⟩
          else
            let prompt := rustTrim p
            match histPhase w1.histFile prompt w1.histWriteOk with
            | (.error e, evs2) => ⟨.error e, evs1 ++ evs2, w1⟩
            | (.ok (recen, histFile2), evs2) =>
              ⟨.ok ⟨MODEL, composeInstruction SYSTEM_INSTRUCTION recen, prompt, key⟩,
                evs1 ++ evs2, { w1 with histFile := histFile2 }⟩
        | none => ⟨.error .emptyInput, evs1, w1⟩

/-! ### Helper lemmas -/

theorem string_data_append (s t : String) : (s ++ t).data = s.data ++ t.data := rfl

theorem splitNL_ne_nil (cs : List Char) : splitNL cs ≠ [] := by
  cases cs with
  | nil => simp [splitNL]
  | cons c cs =>
    simp only [splitNL]
    split <;> simp

theorem splitNL_no_nl (e : List Char) (he : '\n' ∉ e) : splitNL e = [e] := by
  induction e with
  | nil => rfl
  | cons c cs ih =>
    have hc : ¬ c = '\n' := fun h => he (h ▸ List.mem_cons_self c cs)
    have hcs : '\n' ∉ cs := fun h => he (List.mem_cons_of_mem _ h)
    simp [splitNL, hc, ih hcs]

theorem splitNL_append_nl (a rest : List Char) :
    splitNL (a ++ '\n' :: rest) = splitNL a ++ splitNL rest := by
  induction a with
  | nil => simp [splitNL]
  | cons c a ih =>
    by_cases hc : c = '\n'
    · subst hc; simp [splitNL, ih]
    · simp only [List.cons_append, splitNL, if_neg hc, List.append_eq]
      rw [ih]
      cases h : splitNL a with
      | nil => exact absurd h (splitNL_ne_nil a)
      | cons seg r => simp [h]

theorem mkHistory_data_concat (entries : List String) (k : String) :
    (appendHistory (mkHistory entries) k).data = (mkHistory (entries ++ [k])).data := by
  induction entries with
  | nil => simp [appendHistory, mkHistory, string_data_append]
  | cons e es ih =>
    show ((e ++ "\n" ++ mkHistory es) ++ k ++ "\n").data
        = (e ++ "\n" ++ mkHistory (es ++ [k])).data
    have ih' := ih
    simp only [appendHistory, string_data_append, List.append_assoc] at ih' ⊢
    rw [ih']

theorem stripCR_eq_of_not_cr (l : List Char) (h : l.getLast? ≠ some '\r') :
    stripCR l = l := if_neg h

theorem splitNL_mkHistory (entries : List String)
    (h : ∀ e ∈ entries, '\n' ∉ e.data) :
    splitNL (mkHistory entries).data = entries.map String.data ++ [[]] := by
  induction entries with
  | nil => rfl
  | cons e es ih =>
    have hd : (mkHistory (e :: es)).data = e.data ++ '\n' :: (mkHistory es).data := by
      show (e ++ "\n" ++ mkHistory es).data = _
      simp [string_data_append]
    rw [hd, splitNL_append_nl, splitNL_no_nl e.data (h e (by simp)),
      ih (fun x hx => h x (by simp [hx]))]
    simp

theorem map_mk_stripCR (entries : List String)
    (h : ∀ e ∈ entries, e.data.getLast? ≠ some '\r') :
    ((entries.map String.data).map stripCR).map (fun l => (⟨l⟩ : String)) = entries := by
  induction entries with
  | nil => rfl
  | cons e es ih =>
    simp only [List.map_cons]
    rw [stripCR_eq_of_not_cr _ (h e (by simp)), ih (fun x hx => h x (by simp [hx]))]

theorem rustLines_mkHistory (entries : List String)
    (h : ∀ e ∈ entries, '\n' ∉ e.data ∧ e.data.getLast? ≠ some '\r') :
    rustLines (mkHistory entries) = entries := by
  unfold rustLines rustLinesL
  rw [splitNL_mkHistory entries (fun e he => (h e he).1)]
  rw [if_pos (by simp), List.dropLast_concat]
  exact map_mk_stripCR entries (fun e he => (h e he).2)

theorem splitNL_mk_append (entries : List String) (t : String) (ht : '\n' ∉ t.data) :
    ∃ pre, splitNL (appendHistory (mkHistory entries) t).data = pre ++ [t.data, []] := by
  induction entries with
  | nil =>
    refine ⟨[], ?_⟩
    have hd : (appendHistory (mkHistory []) t).data = t.data ++ '\n' :: [] := by
      show (("" : String) ++ t ++ "\n").data = _
      simp [string_data_append]
    rw [hd, splitNL_append_nl, splitNL_no_nl t.data ht]
    rfl
  | cons e es ih =>
    obtain ⟨pre, hp⟩ := ih
    refine ⟨splitNL e.data ++ pre, ?_⟩
    have hd : (appendHistory (mkHistory (e :: es)) t).data
        = e.data ++ '\n' :: (appendHistory (mkHistory es) t).data := by
      show ((e ++ "\n" ++ mkHistory es) ++ t ++ "\n").data = _
      simp [appendHistory, string_data_append]
    rw [hd, splitNL_append_nl, hp]
    exact (List.append_assoc _ _ _).symm

theorem rustLines_append_getLast (entries : List String) (t : String)
    (ht : '\n' ∉ t.data) (ht2 : t.data.getLast? ≠ some '\r') :
    (rustLines (appendHistory (mkHistory entries) t)).getLast? = some t := by
  obtain ⟨pre, hp⟩ := splitNL_mk_append entries t ht
  unfold rustLines rustLinesL
  rw [hp]
  have hsh : pre ++ [t.data, []] = (pre ++ [t.data]) ++ [([] : List Char)] := by simp
  rw [hsh, if_pos (by simp), List.dropLast_concat, List.map_append, List.map_append]
  simp only [List.map_cons, List.map_nil]
  rw [List.getLast?_concat, stripCR_eq_of_not_cr _ ht2]

theorem recentWindow_getLast (s : String) (h : rustLines s ≠ []) :
    (recentWindow s).getLast? = (rustLines s).getLast? := by
  unfold recentWindow
  cases hl : (rustLines s).reverse with
  | nil => exact absurd (by simpa using hl) h
  | cons x xs =>
    have h5 : (x :: xs).take 5 = x :: xs.take 4 := rfl
    rw [h5, List.reverse_cons, List.getLast?_concat]
    have hh := List.head?_reverse (rustLines s)
    rw [hl] at hh
    simpa using hh

theorem recentWindow_length (s : String) :
    (recentWindow s).length = min 5 (rustLines s).length := by
  simp [recentWindow]

theorem head_dropWhile_not {p : Char → Bool} (l : List Char) (a : Char)
    (h : (l.dropWhile p).head? = some a) : p a = false := by
  induction l with
  | nil => simp [List.dropWhile] at h
  | cons c cs ih =>
    by_cases hc : p c
    · rw [List.dropWhile_cons_of_pos hc] at h
      exact ih h
    · rw [List.dropWhile_cons_of_neg hc] at h
      simp only [List.head?_cons, Option.some.injEq] at h
      subst h
      simpa using hc

theorem rustTrim_data (s : String) :
    (rustTrim s).data
      = ((s.data.dropWhile rustIsWhitespace).reverse.dropWhile rustIsWhitespace).reverse :=
  rfl

theorem rustTrim_getLast_not_cr (s : String) :
    (rustTrim s).data.getLast? ≠ some '\r' := by
  rw [rustTrim_data]
  intro hcontra
  rw [List.getLast?_reverse] at hcontra
  have hfalse := head_dropWhile_not _ _ hcontra
  have htrue : rustIsWhitespace '\r' = true := by decide
  rw [htrue] at hfalse
  cases hfalse

theorem resolveKey_no_hist (kf : FileState) (a e : Option String) (wk : Bool) :
    ∀ ev ∈ (resolveKey kf a e wk).2, isHistEv ev = false := by
  intro ev hev
  cases ev <;>
    cases kf <;> cases a <;> cases e <;> cases wk <;>
      simp only [resolveKey, keyFallbackExisting] at hev <;>
      (try split_ifs at hev) <;>
      simp_all [isHistEv]

theorem parse_step_positional (pos : String) (rest : List String) (k p0 : Option String)
    (h1 : pos ≠ "--key") (h2 : pos ≠ "-k") (h3 : pos ≠ "--prompt") (h4 : pos ≠ "-p") :
    parseArgsAux (pos :: rest) k p0
      = parseArgsAux rest k (match p0 with | none => some pos | some p => some p) := by
  rw [parseArgsAux.eq_def]
  simp [h1, h2, h3, h4]

/-! ### Claim C1 -/

/-- C1 (corrected): appending a keyword that contains no newline and does not
end in a carriage return to a history file of entries of the same shape
yields as recent window the last `min (k+1) 5` lines of the updated history
in chronological order, ending with the appended keyword. (The original
claim fails for keywords ending in a carriage return, which Rust's `lines`
strips; see the counterexample.) -/
theorem c1_append_window (entries : List String) (keyword : String)
    (hk1 : '\n' ∉ keyword.data) (hk2 : keyword.data.getLast? ≠ some '\r')
    (he : ∀ e ∈ entries, '\n' ∉ e.data ∧ e.data.getLast? ≠ some '\r') :
    recentWindow (appendHistory (mkHistory entries) keyword)
        = ((entries ++ [keyword]).reverse.take 5).reverse
    ∧ (recentWindow (appendHistory (mkHistory entries) keyword)).length
        = min (entries.length + 1) 5
    ∧ (recentWindow (appendHistory (mkHistory entries) keyword)).getLast?
        = some keyword := by
  have hgood : ∀ e ∈ entries ++ [keyword], '\n' ∉ e.data ∧ e.data.getLast? ≠ some '\r' := by
    intro e hmem
    rcases List.mem_append.mp hmem with h | h
    · exact he e h
    · rcases List.mem_singleton.mp h with rfl
      exact ⟨hk1, hk2⟩
  have hlines : rustLines (appendHistory (mkHistory entries) keyword)
      = entries ++ [keyword] := by
    have hdata := mkHistory_data_concat entries keyword
    have : rustLines (appendHistory (mkHistory entries) keyword)
        = rustLines (mkHistory (entries ++ [keyword])) := by
      unfold rustLines
      rw [hdata]
    rw [this, rustLines_mkHistory _ hgood]
  refine ⟨?_, ?_, ?_⟩
  · unfold recentWindow
    rw [hlines]
  · rw [recentWindow_length, hlines]
    simp [Nat.min_comm]
  · rw [recentWindow_getLast _ (by rw [hlines]; simp), hlines, List.getLast?_concat]

/-- C1 witness: the spec's six-append scenario, derived from the general
theorem; the first entry `"cat girl"` is dropped from the window. -/
theorem c1_append_window_witness :
    recentWindow (appendAll ["cat girl", "robot", "forest", "ocean", "castle", "dragon"])
      = ["robot", "forest", "ocean", "castle", "dragon"] := by
  have h := c1_append_window ["cat girl", "robot", "forest", "ocean", "castle"] "dragon"
    (by decide) (by decide) (by decide)
  have h2 : appendAll ["cat girl", "robot", "forest", "ocean", "castle", "dragon"]
      = appendHistory (mkHistory ["cat girl", "robot", "forest", "ocean", "castle"]) "dragon" := by
    decide
  rw [h2, h.1]
  decide

/-- C1 counterexample: the keyword `"a\r"` contains no newline, yet after
appending it to an empty history the window's last element is `"a"`, not the
keyword: the trailing carriage return is stripped by line splitting. -/
theorem c1_append_window_cex :
    ('\n' ∉ ("a\r" : String).data)
    ∧ (recentWindow (appendHistory (mkHistory []) "a\r")).getLast? ≠ some "a\r" := by
  decide

/-! ### Claim C2 -/

/-- C2 (confirmed): when the key cache file exists and its trimmed contents
are non-blank, resolution returns the trimmed cached value and ignores both
the explicit argument and the environment variable; the only file operation
is the read. -/
theorem c2_cache_wins (c : String) (a e : Option String) (wk : Bool)
    (h : rustTrim c ≠ "") :
    resolveKey (.readable c) a e wk
      = (.ok (rustTrim c, .readable c), [.keyRead]) := by
  simp [resolveKey, h]

/-- C2 witness: a cache `" K "` beats argument `"X"` and environment `"Y"`. -/
theorem c2_cache_wins_witness :
    resolveKey (.readable " K ") (some "X") (some "Y") true
      = (.ok ("K", .readable " K "), [.keyRead]) := by
  have h := c2_cache_wins " K " (some "X") (some "Y") true (by decide)
  rw [h]
  rfl

/-! ### Claim C3 -/

/-- C3 (corrected): when the credential is resolved from the argument or the
environment, its raw form is written to the cache file before being returned
— except in one case the original claim misses: if the cache file exists (but
is blank or unreadable) and the value comes from the explicit argument, the
value is returned without any write, leaving the stale cache in place. The
environment-variable value is always written; the argument value is written
only when the cache file does not exist. -/
theorem c3_write_through (k c : String) (e : Option String) (hc : rustTrim c = "") :
    resolveKey .absent (some k) e true = (.ok (k, .readable k), [.keyWrite k])
    ∧ resolveKey .absent none (some k) true = (.ok (k, .readable k), [.keyWrite k])
    ∧ resolveKey (.readable c) none (some k) true
        = (.ok (k, .readable k), [.keyRead, .keyWrite k])
    ∧ resolveKey .unreadable none (some k) true
        = (.ok (k, .readable k), [.keyRead, .keyWrite k])
    ∧ resolveKey (.readable c) (some k) e true
        = (.ok (k, .readable c), [.keyRead])
    ∧ resolveKey .unreadable (some k) e true
        = (.ok (k, .unreadable), [.keyRead]) := by
  refine ⟨rfl, rfl, ?_, rfl, ?_, rfl⟩
  · simp [resolveKey, keyFallbackExisting, hc]
  · simp [resolveKey, keyFallbackExisting, hc]

/-- C3 witness: with no cache file the argument `"K"` is written through; with
a whitespace-only cache file the argument is returned but the file keeps its
blank contents. -/
theorem c3_write_through_witness :
    resolveKey .absent (some "K") none true = (.ok ("K", .readable "K"), [.keyWrite "K"])
    ∧ resolveKey (.readable "  ") (some "K") none true
        = (.ok ("K", .readable "  "), [.keyRead]) :=
  ⟨(c3_write_through "K" "  " none (by decide)).1,
   (c3_write_through "K" "  " none (by decide)).2.2.2.2.1⟩

/-- C3 counterexample: the cache file exists with whitespace-only contents and
an explicit argument `"K"` is supplied; resolution returns `"K"` from the
argument, yet the cache file still holds `" "` — no write occurred, contrary
to the claim. -/
theorem c3_write_through_cex :
    resolveKey (.readable " ") (some "K") none true
      = (.ok ("K", .readable " "), [.keyRead])
    ∧ FileState.readable " " ≠ FileState.readable "K" :=
  ⟨rfl, by decide⟩

/-! ### Claim C5 -/

/-- C5 (corrected): write failures on either file surface as storage errors,
but — contrary to the original claim — read failures do not: an unreadable
credential file behaves exactly like a blank one (the fallback chain runs,
with the same trace and the same resolved value), and an unreadable history
file behaves exactly like one with empty contents, as does a missing one. -/
theorem c5_storage_errors :
    (∀ hf p, (histPhase hf p false).1 = .error .storage)
    ∧ (∀ k e, (resolveKey .absent (some k) e false).1 = .error .storage)
    ∧ (∀ k, (resolveKey .absent none (some k) false).1 = .error .storage)
    ∧ (∀ k, (resolveKey .unreadable none (some k) false).1 = .error .storage)
    ∧ (∀ a e wk, (resolveKey .unreadable a e wk).1.map Prod.fst
        = (resolveKey (.readable "") a e wk).1.map Prod.fst)
    ∧ (∀ a e wk, (resolveKey .unreadable a e wk).2
        = (resolveKey (.readable "") a e wk).2)
    ∧ (∀ p wk, histPhase .unreadable p wk = histPhase (.readable "") p wk)
    ∧ (∀ p wk, (histPhase .absent p wk).1 = (histPhase (.readable "") p wk).1) := by
  refine ⟨fun hf p => ?_, fun k e => rfl, fun k => rfl, fun k => rfl,
    fun a e wk => ?_, fun a e wk => ?_, fun p wk => rfl, fun p wk => ?_⟩
  · cases hf <;> rfl
  · cases a <;> cases e <;> cases wk <;> rfl
  · cases a <;> cases e <;> cases wk <;> rfl
  · cases wk <;> rfl

/-- C5 counterexample: an existing but unreadable history file is silently
treated as empty (the run's history phase succeeds), and an existing but
unreadable credential file silently falls through to the argument — neither
surfaces as a storage error, contrary to the claim. -/
theorem c5_storage_errors_cex :
    (histPhase .unreadable "robot" true).1 = .ok ("robot", .readable "robot\n")
    ∧ resolveKey .unreadable (some "K") none true
        = (.ok ("K", .unreadable), [.keyRead]) :=
  ⟨rfl, rfl⟩

/-! ### Claim C7 -/

/-- C7 (confirmed): credential resolution is idempotent on a non-blank cache:
two successive resolutions against the same argument and environment return
the identical trimmed value twice, leave the file contents untouched, and
perform only reads. -/
theorem c7_idempotent (c : String) (a e : Option String) (wk : Bool)
    (h : rustTrim c ≠ "") :
    resolveKeyTwice (.readable c) a e wk
      = (.ok (rustTrim c, rustTrim c, .readable c), [.keyRead, .keyRead]) := by
  have h1 : resolveKey (.readable c) a e wk
      = (.ok (rustTrim c, .readable c), [.keyRead]) := by
    simp [resolveKey, h]
  simp [resolveKeyTwice, h1]

/-- C7 witness: resolving twice on cache `" K "` yields `"K"` both times and
leaves the file at `" K "`. -/
theorem c7_idempotent_witness :
    resolveKeyTwice (.readable " K ") (some "X") none true
      = (.ok ("K", "K", .readable " K "), [.keyRead, .keyRead]) := by
  have h := c7_idempotent " K " (some "X") none true (by decide)
  rw [h]
  rfl

/-! ### Claim C8 -/

/-- C8 (confirmed): request composition is a pure total function of the
template and the window: the output is the template, the fixed separator
banner, and the window's entries joined by newlines; and on the spec's
instance (template `"T"`, window `["a","b"]`) it is exactly that golden
string. Determinism and absence of I/O are inherent: `compose` is a total
function of its two arguments. -/
theorem c8_compose (template : String) (window : List String) :
    compose template window
      = template ++ "\n\n--------------------\n**Previous Generated Prompts:**\n"
          ++ String.intercalate "\n" window
    ∧ compose "T" ["a", "b"]
      = "T" ++ "\n\n--------------------\n**Previous Generated Prompts:**\n" ++ "a\nb" :=
  ⟨rfl, rfl⟩

/-! ### Claim C9 -/

/-- C9 (confirmed): a `--prompt`/`-p` flag overwrites the current prompt slot
unconditionally, while a positional argument never overwrites a set prompt;
hence with both a positional prompt and a flag, in either order, the flag's
value wins, and any positional after the first is ignored. -/
theorem c9_flag_overrides (v pos : String) (rest : List String) (k p0 : Option String)
    (hpos : pos ∉ flagStrings) :
    parseArgsAux ("--prompt" :: v :: rest) k p0 = parseArgsAux rest k (some v)
    ∧ parseArgsAux ("-p" :: v :: rest) k p0 = parseArgsAux rest k (some v)
    ∧ parseArgsAux (pos :: rest) k (some v) = parseArgsAux rest k (some v)
    ∧ parseArgsAux [pos, "--prompt", v] k p0 = .ok (k, some v)
    ∧ parseArgsAux ["--prompt", v, pos] k none = .ok (k, some v)
    ∧ (∀ pos2, pos2 ∉ flagStrings → parseArgsAux [pos, pos2] k none = .ok (k, some pos)) := by
  have hx : pos ≠ "--key" ∧ pos ≠ "-k" ∧ pos ≠ "--prompt" ∧ pos ≠ "-p" := by
    simpa [flagStrings] using hpos
  obtain ⟨h1, h2, h3, h4⟩ := hx
  refine ⟨rfl, rfl, ?_, ?_, ?_, ?_⟩
  · rw [parse_step_positional pos rest k (some v) h1 h2 h3 h4]
  · rw [parse_step_positional pos ["--prompt", v] k p0 h1 h2 h3 h4]
    cases p0 <;> rfl
  · show parseArgsAux [pos] k (some v) = .ok (k, some v)
    rw [parse_step_positional pos [] k (some v) h1 h2 h3 h4]
    rfl
  · intro pos2 hpos2
    have hy : pos2 ≠ "--key" ∧ pos2 ≠ "-k" ∧ pos2 ≠ "--prompt" ∧ pos2 ≠ "-p" := by
      simpa [flagStrings] using hpos2
    obtain ⟨g1, g2, g3, g4⟩ := hy
    rw [parse_step_positional pos [pos2] k none h1 h2 h3 h4]
    rw [parse_step_positional pos2 [] k (some pos) g1 g2 g3 g4]
    rfl

/-- C9 witness: with the positional `"hello"` before or after `--prompt "V"`,
the flag's value is the prompt used. -/
theorem c9_flag_overrides_witness :
    parseArgsAux ["hello", "--prompt", "V"] none none = .ok (none, some "V")
    ∧ parseArgsAux ["--prompt", "V", "hello"] none none = .ok (none, some "V") :=
  ⟨(c9_flag_overrides "V" "hello" [] none none (by decide)).2.2.2.1,
   (c9_flag_overrides "V" "hello" [] none none (by decide)).2.2.2.2.1⟩

/-! ### Claim C4 -/

/-- C4 (corrected): a blank prompt does fail with the empty-input error and
does so before any history-file I/O, but — contrary to the original claim —
only after credential resolution, which may read and even write the
credential cache file first (the run's whole event trace is the credential
trace). -/
theorem c4_blank_prompt (args : List String) (w : World) (k : Option String) (p : String)
    (key : String) (fs : FileState) (evs : List Ev)
    (hlen : 2 ≤ args.length)
    (hparse : parseArgsAux (args.drop 1) none none = .ok (k, some p))
    (hblank : rustTrim p = "")
    (hkey : resolveKey w.keyFile k w.envKey w.keyWriteOk = (.ok (key, fs), evs)) :
    (runMain args w).result = .error .emptyInput
    ∧ (runMain args w).events = evs
    ∧ (∀ ev ∈ (runMain args w).events, isHistEv ev = false) := by
  have hrun : runMain args w = ⟨.error .emptyInput, evs, { w with keyFile := fs }⟩ := by
    unfold runMain
    rw [if_neg (by omega), hparse]
    simp [hkey, hblank]
  refine ⟨by rw [hrun], by rw [hrun], ?_⟩
  rw [hrun]
  intro ev hev
  have hnh := resolveKey_no_hist w.keyFile k w.envKey w.keyWriteOk ev
  rw [hkey] at hnh
  exact hnh hev

/-- C4 witness: blank prompt `" "` with a readable non-blank cache: the run
ends with the empty-input error after only the credential-cache read. -/
theorem c4_blank_prompt_witness :
    (runMain ["prog", "-p", " "] ⟨.readable "K", none, .absent, true, true⟩).result
      = .error .emptyInput
    ∧ (runMain ["prog", "-p", " "] ⟨.readable "K", none, .absent, true, true⟩).events
      = [.keyRead] := by
  have h := c4_blank_prompt ["prog", "-p", " "] ⟨.readable "K", none, .absent, true, true⟩
    none " " "K" (.readable "K") [.keyRead] (by decide) rfl (by decide) rfl
  exact ⟨h.1, h.2.1⟩

/-- C4 counterexample: with no cache file, `--key K` and blank prompt `" "`,
the run fails with the empty-input error but has already written the key file
— file I/O happened before the blank-prompt failure, contrary to the claim. -/
theorem c4_blank_prompt_cex :
    (runMain ["prog", "--key", "K", "-p", " "] ⟨.absent, none, .absent, true, true⟩).result
      = .error .emptyInput
    ∧ (runMain ["prog", "--key", "K", "-p", " "] ⟨.absent, none, .absent, true, true⟩).events
      = [.keyWrite "K"] :=
  ⟨rfl, rfl⟩

/-! ### Claim C6 -/

/-- C6 (confirmed): with an absent or blank cache file, no explicit key
argument and no environment value, credential resolution fails with the
missing-credential error and the whole run fails with that error. -/
theorem c6_missing_credential (args : List String) (w : World) (p : Option String)
    (c : String)
    (hlen : 2 ≤ args.length)
    (hparse : parseArgsAux (args.drop 1) none none = .ok (none, p))
    (henv : w.envKey = none)
    (hkf : w.keyFile = .absent ∨ (w.keyFile = .readable c ∧ rustTrim c = "")) :
    (resolveKey w.keyFile none none w.keyWriteOk).1 = .error .missingCredential
    ∧ (runMain args w).result = .error .missingCredential := by
  rcases hkf with hkf | ⟨hkf, hc⟩
  · have hres : resolveKey w.keyFile none none w.keyWriteOk
        = (.error .missingCredential, []) := by
      rw [hkf]; rfl
    refine ⟨by rw [hres], ?_⟩
    unfold runMain
    rw [if_neg (by omega), hparse]
    simp [henv, hres]
  · have hres : resolveKey w.keyFile none none w.keyWriteOk
        = (.error .missingCredential, [.keyRead]) := by
      rw [hkf]
      simp [resolveKey, keyFallbackExisting, hc]
    refine ⟨by rw [hres], ?_⟩
    unfold runMain
    rw [if_neg (by omega), hparse]
    simp [henv, hres]

/-- C6 witness: no cache file, no `--key`, no environment value: the run
fails with the missing-credential error. -/
theorem c6_missing_credential_witness :
    (runMain ["prog", "hello"] ⟨.absent, none, .absent, true, true⟩).result
      = .error .missingCredential :=
  (c6_missing_credential ["prog", "hello"] ⟨.absent, none, .absent, true, true⟩
    (some "hello") "" (by decide) rfl rfl (Or.inl rfl)).2

/-! ### Claim C10 -/

/-- C10 (corrected): in a successful run the prompt is trimmed before use:
the message sent to the external collaborator and the line appended to the
history file both equal the trimmed prompt, and — provided the trimmed prompt
contains no embedded newline, a restriction the original claim misses — the
recent window's final element equals the trimmed prompt as well. -/
theorem c10_trimmed_prompt (args : List String) (w : World) (k : Option String)
    (p key : String) (fs : FileState) (evs1 : List Ev) (entries : List String)
    (hlen : 2 ≤ args.length)
    (hparse : parseArgsAux (args.drop 1) none none = .ok (k, some p))
    (hp : rustTrim p ≠ "")
    (hkey : resolveKey w.keyFile k w.envKey w.keyWriteOk = (.ok (key, fs), evs1))
    (hh : w.histFile = .readable (mkHistory entries))
    (hw : w.histWriteOk = true) :
    (runMain args w).result
      = .ok ⟨MODEL,
          composeInstruction SYSTEM_INSTRUCTION
            (recentPrompts (appendHistory (mkHistory entries) (rustTrim p))),
          rustTrim p, key⟩
    ∧ Ev.histWrite (appendHistory (mkHistory entries) (rustTrim p))
        ∈ (runMain args w).events
    ∧ (runMain args w).world.histFile
        = .readable (appendHistory (mkHistory entries) (rustTrim p))
    ∧ ('\n' ∉ (rustTrim p).data →
        (recentWindow (appendHistory (mkHistory entries) (rustTrim p))).getLast?
          = some (rustTrim p)) := by
  have hhist : histPhase (FileState.readable (mkHistory entries)) (rustTrim p) true
      = (.ok (recentPrompts (appendHistory (mkHistory entries) (rustTrim p)),
            .readable (appendHistory (mkHistory entries) (rustTrim p))),
         [.histRead, .histWrite (appendHistory (mkHistory entries) (rustTrim p))]) := rfl
  have hrun : runMain args w
      = ⟨.ok ⟨MODEL,
            composeInstruction SYSTEM_INSTRUCTION
              (recentPrompts (appendHistory (mkHistory entries) (rustTrim p))),
            rustTrim p, key⟩,
          evs1 ++ [.histRead, .histWrite (appendHistory (mkHistory entries) (rustTrim p))],
          ⟨fs, w.envKey, .readable (appendHistory (mkHistory entries) (rustTrim p)),
            w.keyWriteOk, w.histWriteOk⟩⟩ := by
    unfold runMain
    rw [if_neg (by omega), hparse]
    simp [hkey, hp, hh, hw, hhist]
  refine ⟨by rw [hrun], by rw [hrun]; simp, by rw [hrun], ?_⟩
  intro hnl
  have hlast := rustLines_append_getLast entries (rustTrim p) hnl (rustTrim_getLast_not_cr p)
  have hne : rustLines (appendHistory (mkHistory entries) (rustTrim p)) ≠ [] := by
    intro hnil
    rw [hnil] at hlast
    simp at hlast
  rw [recentWindow_getLast _ hne, hlast]

/-- C10 witness: prompt `"  robot  "` is used as `"robot"` in the message,
the history append, and the window's final element. -/
theorem c10_trimmed_prompt_witness :
    (runMain ["prog", "  robot  "] ⟨.readable "K", none, .readable "cat girl\n", true, true⟩).result
      = .ok ⟨MODEL, composeInstruction SYSTEM_INSTRUCTION (recentPrompts "cat girl\nrobot\n"),
          "robot", "K"⟩
    ∧ (recentWindow "cat girl\nrobot\n").getLast? = some "robot" := by
  have h := c10_trimmed_prompt ["prog", "  robot  "]
    ⟨.readable "K", none, .readable "cat girl\n", true, true⟩
    none "  robot  " "K" (.readable "K") [.keyRead] ["cat girl"]
    (by decide) rfl (by decide) rfl rfl rfl
  exact ⟨h.1, h.2.2.2 (by decide)⟩

/-- C10 counterexample: the accepted prompt `"a\nb"` (its own trimmed form)
is appended to an empty history, but the window's final element is `"b"`,
not the trimmed prompt — the claim fails for prompts with embedded
newlines. -/
theorem c10_trimmed_prompt_cex :
    rustTrim "a\nb" = "a\nb"
    ∧ (runMain ["prog", "a\nb"] ⟨.readable "K", none, .absent, true, true⟩).world.histFile
        = .readable "a\nb\n"
    ∧ (recentWindow "a\nb\n").getLast? ≠ some (rustTrim "a\nb") :=
  ⟨rfl, rfl, by decide⟩
